import Mathlib

/-!
Verification of the ocrpickup repository: a Next.js route handler that chains
an OCR call (Google Cloud Vision) and a workflow call (Dify), plus a
client-side image preparer (`compressImage` / `processFile` in
`src/app/page.tsx`).  The route handler `POST` is embedded as a pure function
from the environment, the parsed request body and the two provider responses
to the HTTP result together with a trace of the outbound calls it makes.
-/

/-! ## JSON values (the shape of JavaScript data handled by the route) -/

mutual

/-- Model of a JavaScript/JSON value as it appears in the bodies exchanged
with the workflow provider. -/
inductive Json where
  | null
  | bool (b : Bool)
  | num (n : Int)
  | str (s : String)
  | arr (items : JsonList)
  | obj (fields : JsonObj)

/-- Model of a JSON object: an ordered list of key/value fields. -/
inductive JsonObj where
  | nil
  | cons (key : String) (value : Json) (rest : JsonObj)

/-- Model of a JSON array. -/
inductive JsonList where
  | nil
  | cons (head : Json) (rest : JsonList)

end

/-- JavaScript truthiness of a JSON value: `null`, `false`, `0` and the empty
string are falsy; every object and array is truthy. -/
def Json.truthy : Json → Bool
  | .null => false
  | .bool b => b
  | .num n => if n = 0 then false else true
  | .str s => if s = "" then false else true
  | .arr _ => true
  | .obj _ => true

/-- Property access `o.key` on a JSON object (first binding wins). -/
def JsonObj.lookup : JsonObj → String → Option Json
  | .nil, _ => none
  | .cons k v rest, key => if k = key then some v else JsonObj.lookup rest key

/-- A run of `n` spaces, the indentation unit of `JSON.stringify(x, null, 2)`. -/
def spacesJ (n : Nat) : String := String.mk (List.replicate n ' ')

/-- One hexadecimal digit, used for control-character escapes. -/
def hexDigitJ (n : Nat) : String :=
  if n < 10 then String.singleton (Char.ofNat (48 + n))
  else String.singleton (Char.ofNat (87 + n))

/-- Escaping of a single character inside a JSON string literal, as
`JSON.stringify` performs it. -/
def escapeJsonChar (c : Char) : String :=
  if c = '"' then "\\\""
  else if c = '\\' then "\\\\"
  else if c = '\n' then "\\n"
  else if c = '\t' then "\\t"
  else if c = '\r' then "\\r"
  else if c = '\x08' then "\\b"
  else if c = '\x0c' then "\\f"
  else if c.toNat < 32 then "\\u00" ++ hexDigitJ (c.toNat / 16) ++ hexDigitJ (c.toNat % 16)
  else String.singleton c

/-- A JSON string literal: quotes around the escaped characters. -/
def quoteJson (s : String) : String :=
  "\"" ++ String.join (s.data.map escapeJsonChar) ++ "\""

mutual

/-- Model of `JSON.stringify(v, null, 2)` at indentation level `ind`:
pretty-printing with two-space indentation, exactly as the route handler
serializes the workflow outputs mapping. -/
def stringifyVal (ind : Nat) : Json → String
  | .null => "null"
  | .bool b => if b then "true" else "false"
  | .num n => toString n
  | .str s => quoteJson s
  | .arr .nil => "[]"
  | .arr items =>
    "[\n" ++ String.intercalate ",\n" (stringifyItems (ind + 2) items) ++ "\n" ++ spacesJ ind ++ "]"
  | .obj .nil => "\x7b\x7d"
  | .obj fields =>
    "\x7b\n" ++ String.intercalate ",\n" (stringifyFields (ind + 2) fields) ++ "\n" ++ spacesJ ind ++ "\x7d"

/-- The serialized lines of a JSON array's items. -/
def stringifyItems (ind : Nat) : JsonList → List String
  | .nil => []
  | .cons x xs => (spacesJ ind ++ stringifyVal ind x) :: stringifyItems ind xs

/-- The serialized lines of a JSON object's fields. -/
def stringifyFields (ind : Nat) : JsonObj → List String
  | .nil => []
  | .cons k v rest =>
    (spacesJ ind ++ quoteJson k ++ ": " ++ stringifyVal ind v) :: stringifyFields ind rest

end

/-! ## JavaScript string primitives used by the handler -/

/-- Accumulator loop behind `jsSplit`. -/
def splitAux (sep : Char) : List Char → List Char → List String
  | [], acc => [String.mk acc.reverse]
  | c :: cs, acc =>
    if c = sep then String.mk acc.reverse :: splitAux sep cs []
    else splitAux sep cs (c :: acc)

/-- Model of JavaScript `s.split(sep)` for a one-character separator, as in
`image.split(',')` in the route handler. -/
def jsSplit (sep : Char) (s : String) : List String := splitAux sep s.data []

/-- Model of JavaScript `s.startsWith(p)` (used on MIME types by the client). -/
def strStartsWith (s p : String) : Bool := p.data.isPrefixOf s.data

/-- JavaScript truthiness of an optional string value (`undefined` and the
empty string are falsy), as in the handler's `!image` and `!difyApiKey`. -/
def jsTruthyStr : Option String → Bool
  | none => false
  | some s => if s = "" then false else true

/-- JavaScript `a || b` on an optional string: `b` when `a` is absent or
empty, `a` otherwise (as in `prompt || "抽出してください"`). -/
def jsOrString (a : Option String) (b : String) : String :=
  match a with
  | none => b
  | some s => if s = "" then b else s

/-- Fetch-API `Response.ok`: true exactly for HTTP statuses 200–299. -/
def fetchOk (status : Nat) : Bool := decide (200 ≤ status) && decide (status < 300)

/-! ## Data crossing the route handler's boundary (src/app/api/analyze/route.ts,
kept in the repository snapshot as `src/unnamed/part_000`) -/

/-- The process environment read by the handler: `DIFY_API_KEY`,
`DIFY_API_URL` and `GOOGLE_VISION_API_KEY`, each possibly unset. -/
structure Env where
  DIFY_API_KEY : Option String
  DIFY_API_URL : Option String
  GOOGLE_VISION_API_KEY : Option String

/-- The parsed JSON body of the inbound request: `const { image, prompt } =
await req.json()`.  An absent field destructures to `undefined`, modelled as
`none`. -/
structure AnalyzeRequest where
  image : Option String
  prompt : Option String

/-- The payload of the outbound Vision call: the request URL (which carries
the key), `requests[0].image.content` (absent when `image.split(',')[1]` is
`undefined`) and the feature type `"TEXT_DETECTION"`. -/
structure VisionPayload where
  url : String
  content : Option String
  featureType : String

/-- The payload of the outbound Dify call: the endpoint URL and the fields of
the JSON body `inputs.ocr_text`, `inputs.user_prompt`, `response_mode`,
`user`. -/
structure WorkflowPayload where
  url : String
  ocr_text : String
  user_prompt : String
  response_mode : String
  user : String

/-- The outbound calls a run of the handler performs, in order; `none` means
the corresponding `fetch` was never reached. -/
structure Trace where
  visionCall : Option VisionPayload
  workflowCall : Option WorkflowPayload

/-- One element of `visionData.responses[0].textAnnotations`; the handler
reads only its `description` field. -/
structure DetectedText where
  description : String

/-- One element of `visionData.responses`; `textAnnotations` may be absent. -/
structure VisionItem where
  textAnnotations : Option (List DetectedText)

/-- The parsed JSON body of a successful Vision response. -/
structure VisionData where
  responses : List VisionItem

/-- The `data` member of a Dify workflow response; the handler reads only
`data.outputs`. -/
structure WorkflowDataInner where
  outputs : Option JsonObj

/-- The parsed JSON body of a successful Dify workflow response. -/
structure WorkflowData where
  data : Option WorkflowDataInner

/-- Behaviour of the Vision endpoint for this request: HTTP status, the text
body read on failure, and the parsed JSON body read on success. -/
structure VisionEndpoint where
  status : Nat
  text : String
  json : VisionData

/-- Behaviour of the Dify endpoint for this request: HTTP status, the text
body read on failure, and the parsed JSON body read on success. -/
structure WorkflowEndpoint where
  status : Nat
  text : String
  json : WorkflowData

/-- The handler's `NextResponse.json` result: either `{ error }` with an
explicit status, or `{ answer }` with the default status 200.  The `answer`
value is optional because `NextResponse.json({ answer: undefined })` drops
the key. -/
inductive PostResult where
  | errorResp (status : Nat) (error : String)
  | answerResp (answer : Option Json)

/-- The HTTP status of a handler result (`NextResponse.json` defaults to
200 when no status is given). -/
def PostResult.statusCode : PostResult → Nat
  | .errorResp s _ => s
  | .answerResp _ => 200

/-- Embeds `const ocrText = detections && detections.length > 0 ?
detections[0].description : ''` with `detections =
visionData.responses[0]?.textAnnotations`. -/
def ocrTextOf (v : VisionData) : String :=
  match v.responses.head? with
  | none => ""
  | some item =>
    match item.textAnnotations with
    | none => ""
    | some [] => ""
    | some (d :: _) => d.description

/-- True when the first Vision response carries an empty or absent
text-annotation array (or there is no first response at all). -/
def noDetections (v : VisionData) : Bool :=
  match v.responses.head? with
  | none => true
  | some item =>
    match item.textAnnotations with
    | none => true
    | some l => l.isEmpty

/-- Embeds `const resultText = workflowData.data?.outputs?.result ||
JSON.stringify(workflowData.data?.outputs, null, 2)`.  The right operand of
`||` is `undefined` (here `none`) when `outputs` is absent, since
`JSON.stringify(undefined)` is `undefined`. -/
def resultTextOf (w : WorkflowData) : Option Json :=
  let outputs := w.data.bind WorkflowDataInner.outputs
  let fallback := outputs.map (fun o => Json.str (stringifyVal 0 (Json.obj o)))
  match outputs.bind (fun o => o.lookup "result") with
  | some v => if v.truthy then some v else fallback
  | none => fallback

/-- Embedding of the route handler `POST` (src/unnamed/part_000, the
repository's `app/api/analyze/route.ts`).  The two `fetch` calls are
represented by the `vision` and `workflow` endpoint behaviours; the returned
`Trace` records which outbound calls were reached and with what payloads.
The final `catch` branch (500 `Internal Server Error: ...`) is unreachable in
this embedding because every modelled step is total. -/
def POST (env : Env) (req : AnalyzeRequest) (vision : VisionEndpoint)
    (workflow : WorkflowEndpoint) : PostResult × Trace :=
  let image := req.image
  let prompt := req.prompt
  if !(jsTruthyStr image) then
    (.errorResp 400 "Image is required", ⟨none, none⟩)
  else
    let difyApiKey := env.DIFY_API_KEY
    let difyApiUrl := jsOrString env.DIFY_API_URL "https://api.dify.ai/v1"
    let googleApiKey := env.GOOGLE_VISION_API_KEY
    if !(jsTruthyStr difyApiKey) then
      (.errorResp 500 "Dify API Key is not configured", ⟨none, none⟩)
    else if !(jsTruthyStr googleApiKey) then
      (.errorResp 500 "Google Vision API Key is not configured", ⟨none, none⟩)
    else
      let base64Data := (jsSplit ',' (image.getD "")).get? 1
      let visionApiUrl :=
        "https://vision.googleapis.com/v1/images:annotate?key=" ++ googleApiKey.getD ""
      let visionPayload : VisionPayload := ⟨visionApiUrl, base64Data, "TEXT_DETECTION"⟩
      if !(fetchOk vision.status) then
        (.errorResp vision.status ("Vision API Error: " ++ vision.text),
          ⟨some visionPayload, none⟩)
      else
        let ocrText := ocrTextOf vision.json
        if ocrText = "" then
          (.errorResp 400 "No text detected in the image.", ⟨some visionPayload, none⟩)
        else
          let workflowPayload : WorkflowPayload :=
            ⟨difyApiUrl ++ "/workflows/run", ocrText, jsOrString prompt "抽出してください",
              "blocking", "image-extractor-user"⟩
          if !(fetchOk workflow.status) then
            (.errorResp workflow.status ("Analysis failed: " ++ workflow.text),
              ⟨some visionPayload, some workflowPayload⟩)
          else
            (.answerResp (resultTextOf workflow.json),
              ⟨some visionPayload, some workflowPayload⟩)

/-! ## Image preparer (src/app/page.tsx) -/

/-- The bound `MAX_WIDTH = 1024` of `compressImage`. -/
def MAX_WIDTH : ℚ := 1024

/-- The bound `MAX_HEIGHT = 1024` of `compressImage`. -/
def MAX_HEIGHT : ℚ := 1024

/-- Embeds the dimension computation of `compressImage` (page.tsx lines
38–51): numbers are modelled as exact rationals. -/
def scaleDims (width height : ℚ) : ℚ × ℚ :=
  if width > height then
    if width > MAX_WIDTH then (MAX_WIDTH, height * (MAX_WIDTH / width)) else (width, height)
  else
    if height > MAX_HEIGHT then (width * (MAX_HEIGHT / height), MAX_HEIGHT) else (width, height)

/-- The raster dimensions of the canvas `compressImage` draws into: assigning
a non-negative number to `canvas.width` / `canvas.height` truncates it to an
integer. -/
def canvasDims (width height : ℕ) : ℤ × ℤ :=
  let p := scaleDims (width : ℚ) (height : ℚ)
  (⌊p.1⌋, ⌊p.2⌋)

/-- A user-supplied file as the client sees it; `fileType` embeds the
JavaScript `File.type` MIME string (`type` is reserved in Lean). -/
structure FileLike where
  fileType : String

/-- Outcome of decoding the file into an `Image` inside `compressImage`:
either the intrinsic pixel dimensions, or a load error. -/
inductive DecodeOutcome where
  | decoded (width height : ℕ)
  | failed

/-- Observable outcome of `processFile` (page.tsx lines 65–81): the
validation error message, the compressed image's raster dimensions, or the
processing error message. -/
inductive ProcessOutcome where
  | validationError (message : String)
  | imageReady (width height : ℤ)
  | processingError (message : String)

/-- Embeds `processFile`: the MIME-type guard, then `compressImage` (whose
decode outcome is `dec`).  The second component records whether
`compressImage` was invoked at all (decode/encode work). -/
def processFile (f : FileLike) (dec : DecodeOutcome) : ProcessOutcome × Bool :=
  if !(strStartsWith f.fileType "image/") then
    (.validationError "画像ファイルを選択してください。", false)
  else
    match dec with
    | .decoded w h =>
      let dims := canvasDims w h
      (.imageReady dims.1 dims.2, true)
    | .failed => (.processingError "画像の読み込みに失敗しました。", true)

/-! ## Claim-side definition for C10 -/

/-- Modelled from the claim's words (C10): "whatever follows the first comma"
of a string, absent when the string has no comma.  This is the spec-side
reading, to be compared with the handler's `image.split(',')[1]`. -/
def afterFirstComma (s : String) : Option String :=
  match jsSplit ',' s with
  | [] => none
  | [_] => none
  | _ :: rest => some (String.intercalate "," rest)

/-! ## Concrete fixtures used by witnesses and counterexamples -/

/-- An environment with both credentials configured. -/
def envOk : Env := ⟨some "dify-key", none, some "google-key"⟩

/-- A request carrying a well-formed data-URL image and no prompt. -/
def reqHello : AnalyzeRequest := ⟨some "data:image/png;base64,AAAA", none⟩

/-- A successful Vision response detecting the text "Hello World". -/
def visionHello : VisionEndpoint := ⟨200, "", ⟨[⟨some [⟨"Hello World"⟩]⟩]⟩⟩

/-- A successful workflow response with `data.outputs.result = "Item: Value"`. -/
def wfItemValue : WorkflowEndpoint :=
  ⟨200, "", ⟨some ⟨some (.cons "result" (.str "Item: Value") .nil)⟩⟩⟩

/-- A successful workflow response whose `outputs.result` is present but is
the empty string. -/
def wfEmptyResult : WorkflowEndpoint :=
  ⟨200, "", ⟨some ⟨some (.cons "result" (.str "") .nil)⟩⟩⟩

/-- A successful workflow response whose outputs lack a `result` field. -/
def wfFooBar : WorkflowEndpoint :=
  ⟨200, "", ⟨some ⟨some (.cons "foo" (.str "bar") .nil)⟩⟩⟩

/-- A failed workflow response: HTTP 503 with body "service unavailable". -/
def wf503 : WorkflowEndpoint := ⟨503, "service unavailable", ⟨none⟩⟩

/-- A successful Vision response whose annotation array is empty. -/
def visionEmpty : VisionEndpoint := ⟨200, "", ⟨[⟨some []⟩]⟩⟩

/-! ## Helper lemmas -/

/-- An empty or absent annotation array makes the extracted OCR text the
empty string. -/
theorem noDetections_ocrText (v : VisionData) (h : noDetections v = true) :
    ocrTextOf v = "" := by
  obtain ⟨responses⟩ := v
  cases responses with
  | nil => rfl
  | cons item rest =>
    obtain ⟨ta⟩ := item
    cases ta with
    | none => rfl
    | some l =>
      cases l with
      | nil => rfl
      | cons d tl => simp [noDetections] at h

/-- Appending onto a non-empty right part never yields the empty string. -/
theorem append_ne_empty_right (s t : String) (h : t ≠ "") : s ++ t ≠ "" := by
  obtain ⟨a⟩ := s
  obtain ⟨b⟩ := t
  intro he
  apply h
  have hd : a ++ b = ([] : List Char) := congrArg String.data he
  have hb : b = [] := (List.append_eq_nil.mp hd).2
  rw [hb]

/-- The serialization of a JSON object is never the empty string. -/
theorem stringify_obj_ne_empty (n : Nat) (o : JsonObj) :
    stringifyVal n (Json.obj o) ≠ "" := by
  cases o with
  | nil =>
    intro h
    have hne : ("\x7b\x7d" : String) ≠ "" := by decide
    exact hne h
  | cons k v rest =>
    show "\x7b\n" ++ String.intercalate ",\n" (stringifyFields (n + 2) (.cons k v rest)) ++
      "\n" ++ spacesJ n ++ "\x7d" ≠ ""
    exact append_ne_empty_right _ "\x7d" (by decide)

/-- Truncating to the canvas raster moves each dimension by less than one. -/
theorem abs_floor_sub_lt_one (x : ℚ) : |((⌊x⌋ : ℚ)) - x| < 1 := by
  rw [abs_sub_lt_iff]
  constructor
  · linarith [Int.floor_le x]
  · linarith [Int.lt_floor_add_one x]

/-! ## C5: missing image payload -/

/-- C5: for every inbound request whose body lacks an image payload, the
handler fails with status 400 and the "Image is required" message.  The
statement quantifies over every environment (configured or not) and every
provider behaviour, and the trace records no outbound call: the failure
happens before the credential checks and before any provider call. -/
theorem C5_image_required (env : Env) (req : AnalyzeRequest) (vision : VisionEndpoint)
    (workflow : WorkflowEndpoint) (hImg : req.image = none) :
    (POST env req vision workflow).1 = .errorResp 400 "Image is required" ∧
    (POST env req vision workflow).2.visionCall = none ∧
    (POST env req vision workflow).2.workflowCall = none := by
  refine ⟨?_, ?_, ?_⟩ <;> simp [POST, hImg, jsTruthyStr]

/-- C5 witness at a concrete imageless request. -/
theorem C5_image_required_witness :
    (⟨none, some "p"⟩ : AnalyzeRequest).image = none ∧
    (POST envOk ⟨none, some "p"⟩ visionHello wfItemValue).1 =
      .errorResp 400 "Image is required" := by
  refine ⟨rfl, ?_⟩
  exact (C5_image_required envOk ⟨none, some "p"⟩ visionHello wfItemValue rfl).1

/-! ## C3: missing credentials -/

/-- C3: when either service credential is absent (or empty, which is equally
falsy), the handler fails with status 500 and one of the two
"... is not configured" messages, and no outbound call is attempted. -/
theorem C3_not_configured (env : Env) (req : AnalyzeRequest) (vision : VisionEndpoint)
    (workflow : WorkflowEndpoint) (hImg : jsTruthyStr req.image = true)
    (hMissing : jsTruthyStr env.DIFY_API_KEY = false ∨
      jsTruthyStr env.GOOGLE_VISION_API_KEY = false) :
    ((POST env req vision workflow).1 = .errorResp 500 "Dify API Key is not configured" ∨
     (POST env req vision workflow).1 =
       .errorResp 500 "Google Vision API Key is not configured") ∧
    (POST env req vision workflow).2.visionCall = none ∧
    (POST env req vision workflow).2.workflowCall = none := by
  cases hd : jsTruthyStr env.DIFY_API_KEY with
  | false =>
    refine ⟨Or.inl ?_, ?_, ?_⟩ <;> simp [POST, hImg, hd]
  | true =>
    have hg : jsTruthyStr env.GOOGLE_VISION_API_KEY = false := by
      rcases hMissing with h | h
      · rw [hd] at h; exact absurd h (by decide)
      · exact h
    refine ⟨Or.inr ?_, ?_, ?_⟩ <;> simp [POST, hImg, hd, hg]

/-- C3 witness: an environment with no OCR credential. -/
theorem C3_not_configured_witness :
    jsTruthyStr reqHello.image = true ∧
    jsTruthyStr (⟨some "dify-key", none, none⟩ : Env).GOOGLE_VISION_API_KEY = false ∧
    ((POST ⟨some "dify-key", none, none⟩ reqHello visionHello wfItemValue).1 =
        .errorResp 500 "Dify API Key is not configured" ∨
     (POST ⟨some "dify-key", none, none⟩ reqHello visionHello wfItemValue).1 =
        .errorResp 500 "Google Vision API Key is not configured") ∧
    (POST ⟨some "dify-key", none, none⟩ reqHello visionHello wfItemValue).2.visionCall = none := by
  have h := C3_not_configured ⟨some "dify-key", none, none⟩ reqHello visionHello wfItemValue
    (by decide) (Or.inr (by decide))
  exact ⟨by decide, by decide, h.1, h.2.1⟩

/-! ## C2: no text detected -/

/-- C2: when the OCR provider responds with success but its text-annotation
array is empty or absent, the handler fails with status 400 and the
"No text detected in the image." message, and the workflow provider is never
called (the trace records no workflow call). -/
theorem C2_no_text_detected (env : Env) (req : AnalyzeRequest) (vision : VisionEndpoint)
    (workflow : WorkflowEndpoint) (hImg : jsTruthyStr req.image = true)
    (hDify : jsTruthyStr env.DIFY_API_KEY = true)
    (hGoogle : jsTruthyStr env.GOOGLE_VISION_API_KEY = true)
    (hVok : fetchOk vision.status = true)
    (hEmpty : noDetections vision.json = true) :
    (POST env req vision workflow).1 = .errorResp 400 "No text detected in the image." ∧
    (POST env req vision workflow).2.workflowCall = none := by
  have hOcr : ocrTextOf vision.json = "" := noDetections_ocrText _ hEmpty
  constructor <;> simp [POST, hImg, hDify, hGoogle, hVok, hOcr]

/-- C2 witness: a successful Vision response with an empty annotation
array. -/
theorem C2_no_text_detected_witness :
    noDetections visionEmpty.json = true ∧
    (POST envOk reqHello visionEmpty wfItemValue).1 =
      .errorResp 400 "No text detected in the image." ∧
    (POST envOk reqHello visionEmpty wfItemValue).2.workflowCall = none := by
  refine ⟨by decide, ?_⟩
  exact C2_no_text_detected envOk reqHello visionEmpty wfItemValue
    (by decide) (by decide) (by decide) (by decide) (by decide)

/-! ## C4: upstream provider errors -/

/-- C4: a non-success status from either provider is mirrored as the
handler's status, and the provider's body text is contained in the error
message (witnessed by an explicit prefix/suffix decomposition). -/
theorem C4_upstream_error (env : Env) (req : AnalyzeRequest) (vision : VisionEndpoint)
    (workflow : WorkflowEndpoint) (hImg : jsTruthyStr req.image = true)
    (hDify : jsTruthyStr env.DIFY_API_KEY = true)
    (hGoogle : jsTruthyStr env.GOOGLE_VISION_API_KEY = true) :
    (fetchOk vision.status = false →
      (POST env req vision workflow).1 =
        .errorResp vision.status ("Vision API Error: " ++ vision.text) ∧
      ∃ pre suf, "Vision API Error: " ++ vision.text = pre ++ vision.text ++ suf) ∧
    (fetchOk vision.status = true → ocrTextOf vision.json ≠ "" →
      fetchOk workflow.status = false →
      (POST env req vision workflow).1 =
        .errorResp workflow.status ("Analysis failed: " ++ workflow.text) ∧
      ∃ pre suf, "Analysis failed: " ++ workflow.text = pre ++ workflow.text ++ suf) := by
  constructor
  · intro hv
    refine ⟨by simp [POST, hImg, hDify, hGoogle, hv], "Vision API Error: ", "", by simp⟩
  · intro hv hocr hw
    refine ⟨by simp [POST, hImg, hDify, hGoogle, hv, hocr, hw], "Analysis failed: ", "", by simp⟩

/-- C4 witness: a workflow response of HTTP 503 with body
"service unavailable" yields status 503 with the body in the message. -/
theorem C4_upstream_error_witness :
    fetchOk wf503.status = false ∧
    (POST envOk reqHello visionHello wf503).1 =
      .errorResp 503 ("Analysis failed: " ++ "service unavailable") ∧
    ∃ pre suf, "Analysis failed: " ++ wf503.text = pre ++ wf503.text ++ suf := by
  have h := (C4_upstream_error envOk reqHello visionHello wf503
    (by decide) (by decide) (by decide)).2 (by decide) (by decide) (by decide)
  exact ⟨by decide, h.1, h.2⟩

/-! ## C1: response normalization (corrected: selection is by truthiness) -/

/-- C1 counterexample: with both calls succeeding and `data.outputs.result`
present but equal to the empty string, the claim as stated predicts
`answer = ""`; the handler instead returns the serialization of the whole
outputs mapping, a non-empty string.  Both facts are computed at the explicit
input `wfEmptyResult`. -/
theorem C1_normalization_counterexample :
    (POST envOk reqHello visionHello wfEmptyResult).1 =
      .answerResp (some (.str "\x7b\n  \"result\": \"\"\n\x7d")) ∧
    ("\x7b\n  \"result\": \"\"\n\x7d" : String) ≠ "" := by
  exact ⟨rfl, by decide⟩

/-- C1 (amended): for every request in which both provider calls succeed and
the workflow response carries an outputs mapping, the handler returns status
200 with an answer that equals `data.outputs.result` when that field is
present and truthy (in particular any non-empty string), and otherwise (the
field absent or falsy) equals the `JSON.stringify(outputs, null, 2)`
serialization of the full outputs mapping. -/
theorem C1_normalization (env : Env) (req : AnalyzeRequest) (vision : VisionEndpoint)
    (workflow : WorkflowEndpoint) (outputs : JsonObj)
    (hImg : jsTruthyStr req.image = true)
    (hDify : jsTruthyStr env.DIFY_API_KEY = true)
    (hGoogle : jsTruthyStr env.GOOGLE_VISION_API_KEY = true)
    (hVok : fetchOk vision.status = true)
    (hOcr : ocrTextOf vision.json ≠ "")
    (hWok : fetchOk workflow.status = true)
    (hOut : workflow.json.data.bind WorkflowDataInner.outputs = some outputs) :
    (POST env req vision workflow).1.statusCode = 200 ∧
    (∀ v, outputs.lookup "result" = some v → v.truthy = true →
      (POST env req vision workflow).1 = .answerResp (some v)) ∧
    ((outputs.lookup "result" = none ∨
        ∃ v, outputs.lookup "result" = some v ∧ v.truthy = false) →
      (POST env req vision workflow).1 =
        .answerResp (some (.str (stringifyVal 0 (.obj outputs))))) := by
  have hP : (POST env req vision workflow).1 = .answerResp (resultTextOf workflow.json) := by
    simp [POST, hImg, hDify, hGoogle, hVok, hOcr, hWok]
  refine ⟨by rw [hP]; rfl, ?_, ?_⟩
  · intro v hv htr
    rw [hP]
    simp [resultTextOf, hOut, hv, htr]
  · intro hcase
    rw [hP]
    rcases hcase with hnone | ⟨v, hv, hfalse⟩
    · simp [resultTextOf, hOut, hnone]
    · simp [resultTextOf, hOut, hv, hfalse]

/-- C1 witness: the spec's own example, OCR text "Hello World" and a
workflow response `data.outputs.result = "Item: Value"`. -/
theorem C1_normalization_witness :
    jsTruthyStr reqHello.image = true ∧ fetchOk visionHello.status = true ∧
    ocrTextOf visionHello.json ≠ "" ∧ fetchOk wfItemValue.status = true ∧
    (POST envOk reqHello visionHello wfItemValue).1.statusCode = 200 ∧
    (POST envOk reqHello visionHello wfItemValue).1 =
      .answerResp (some (.str "Item: Value")) := by
  have h := C1_normalization envOk reqHello visionHello wfItemValue
    (.cons "result" (.str "Item: Value") .nil) (by decide) (by decide) (by decide)
    (by decide) (by decide) (by decide) rfl
  exact ⟨by decide, by decide, by decide, by decide, h.1, h.2.1 _ rfl (by decide)⟩

/-! ## C9: fallback selected by falsiness, not absence -/

/-- C9: for every successful workflow response whose `data.outputs.result`
field is present but falsy (e.g. the empty string), the handler answers with
the serialization of the whole outputs mapping — which is never the empty
result string, since the serialization of an object is non-empty. -/
theorem C9_falsy_result_fallback (env : Env) (req : AnalyzeRequest) (vision : VisionEndpoint)
    (workflow : WorkflowEndpoint) (outputs : JsonObj) (v : Json)
    (hImg : jsTruthyStr req.image = true)
    (hDify : jsTruthyStr env.DIFY_API_KEY = true)
    (hGoogle : jsTruthyStr env.GOOGLE_VISION_API_KEY = true)
    (hVok : fetchOk vision.status = true)
    (hOcr : ocrTextOf vision.json ≠ "")
    (hWok : fetchOk workflow.status = true)
    (hOut : workflow.json.data.bind WorkflowDataInner.outputs = some outputs)
    (hRes : outputs.lookup "result" = some v)
    (hFalsy : v.truthy = false) :
    (POST env req vision workflow).1 =
      .answerResp (some (.str (stringifyVal 0 (.obj outputs)))) ∧
    stringifyVal 0 (.obj outputs) ≠ "" := by
  constructor
  · have hP : (POST env req vision workflow).1 =
        .answerResp (resultTextOf workflow.json) := by
      simp [POST, hImg, hDify, hGoogle, hVok, hOcr, hWok]
    rw [hP]
    simp [resultTextOf, hOut, hRes, hFalsy]
  · exact stringify_obj_ne_empty 0 outputs

/-- C9 witness: `outputs.result` present and equal to `""`. -/
theorem C9_falsy_result_fallback_witness :
    (JsonObj.cons "result" (.str "") .nil).lookup "result" = some (.str "") ∧
    (Json.str "").truthy = false ∧
    (POST envOk reqHello visionHello wfEmptyResult).1 =
      .answerResp (some (.str (stringifyVal 0 (.obj (.cons "result" (.str "") .nil))))) ∧
    stringifyVal 0 (.obj (.cons "result" (.str "") .nil)) ≠ "" := by
  have h := C9_falsy_result_fallback envOk reqHello visionHello wfEmptyResult
    (.cons "result" (.str "") .nil) (.str "") (by decide) (by decide) (by decide)
    (by decide) (by decide) (by decide) rfl rfl rfl
  exact ⟨rfl, rfl, h.1, h.2⟩

/-! ## C8: instruction defaulting (corrected: empty prompt also defaults) -/

/-- C8 counterexample: a request that supplies the prompt `""` still reaches
the workflow call with `user_prompt = "抽出してください"`, not with the
supplied prompt, because `prompt || "抽出してください"` selects by
truthiness. -/
theorem C8_default_instruction_counterexample :
    (POST envOk ⟨some "data:image/png;base64,AAAA", some ""⟩ visionHello wfItemValue).2.workflowCall =
      some ⟨"https://api.dify.ai/v1/workflows/run", "Hello World", "抽出してください",
        "blocking", "image-extractor-user"⟩ ∧
    ("抽出してください" : String) ≠ "" := by
  exact ⟨rfl, by decide⟩

/-- C8 (amended): whenever the workflow call is reached, an absent — or
empty, which is equally falsy — prompt field makes the handler pass the
default instruction "抽出してください" as the `user_prompt` input, and a
supplied non-empty prompt is passed unchanged. -/
theorem C8_default_instruction (env : Env) (req : AnalyzeRequest) (vision : VisionEndpoint)
    (workflow : WorkflowEndpoint)
    (hImg : jsTruthyStr req.image = true)
    (hDify : jsTruthyStr env.DIFY_API_KEY = true)
    (hGoogle : jsTruthyStr env.GOOGLE_VISION_API_KEY = true)
    (hVok : fetchOk vision.status = true)
    (hOcr : ocrTextOf vision.json ≠ "") :
    ((req.prompt = none ∨ req.prompt = some "") →
      ∃ u : WorkflowPayload, (POST env req vision workflow).2.workflowCall = some u ∧
        u.user_prompt = "抽出してください") ∧
    (∀ p, req.prompt = some p → p ≠ "" →
      ∃ u : WorkflowPayload, (POST env req vision workflow).2.workflowCall = some u ∧
        u.user_prompt = p) := by
  have key : (POST env req vision workflow).2.workflowCall =
      some ⟨jsOrString env.DIFY_API_URL "https://api.dify.ai/v1" ++ "/workflows/run",
        ocrTextOf vision.json, jsOrString req.prompt "抽出してください",
        "blocking", "image-extractor-user"⟩ := by
    cases hw : fetchOk workflow.status with
    | false => simp [POST, hImg, hDify, hGoogle, hVok, hOcr, hw]
    | true => simp [POST, hImg, hDify, hGoogle, hVok, hOcr, hw]
  constructor
  · intro hp
    refine ⟨_, key, ?_⟩
    rcases hp with h | h <;> simp [jsOrString, h]
  · intro p hp hne
    refine ⟨_, key, ?_⟩
    simp [jsOrString, hp, hne]

/-- C8 witness: a request with no prompt field gets the default
instruction. -/
theorem C8_default_instruction_witness :
    reqHello.prompt = none ∧
    (∃ u : WorkflowPayload,
      (POST envOk reqHello visionHello wfItemValue).2.workflowCall = some u ∧
      u.user_prompt = "抽出してください") := by
  have h := C8_default_instruction envOk reqHello visionHello wfItemValue
    (by decide) (by decide) (by decide) (by decide) (by decide)
  exact ⟨rfl, h.1 (Or.inl rfl)⟩

/-! ## C10: no validation of the image format (corrected: the handler sends
the second comma-separated field, not everything after the first comma) -/

/-- C10 counterexample: for the non-data-URL image "a,b,c" the presence check
passes and the OCR provider is called, but with content "b" — the field
between the first and second commas — whereas "whatever follows the first
comma" is "b,c". -/
theorem C10_image_forwarding_counterexample :
    (POST envOk ⟨some "a,b,c", none⟩ visionHello wfItemValue).2.visionCall =
      some ⟨"https://vision.googleapis.com/v1/images:annotate?key=google-key",
        some "b", "TEXT_DETECTION"⟩ ∧
    afterFirstComma "a,b,c" = some "b,c" ∧
    (some "b" : Option String) ≠ some "b,c" := by
  exact ⟨rfl, by decide, by decide⟩

/-- C10 (amended): the handler performs no validation of the embeddable-image
format.  With both credentials configured, every request whose image field is
any non-empty string passes the presence check and the OCR provider is called
with `image.split(',')[1]` — the second comma-separated field, absent when
the string has no comma; only a missing or empty-string image is rejected
with status 400 before any call. -/
theorem C10_no_image_validation (env : Env) (req : AnalyzeRequest) (vision : VisionEndpoint)
    (workflow : WorkflowEndpoint)
    (hDify : jsTruthyStr env.DIFY_API_KEY = true)
    (hGoogle : jsTruthyStr env.GOOGLE_VISION_API_KEY = true) :
    (∀ s, req.image = some s → s ≠ "" →
      (POST env req vision workflow).2.visionCall =
        some ⟨"https://vision.googleapis.com/v1/images:annotate?key=" ++
            env.GOOGLE_VISION_API_KEY.getD "",
          (jsSplit ',' s).get? 1, "TEXT_DETECTION"⟩) ∧
    ((req.image = none ∨ req.image = some "") →
      (POST env req vision workflow).1 = .errorResp 400 "Image is required" ∧
      (POST env req vision workflow).2.visionCall = none) := by
  constructor
  · intro s hs hne
    have hImg : jsTruthyStr (some s) = true := by simp [jsTruthyStr, hne]
    cases hv : fetchOk vision.status with
    | false => simp [POST, hs, hImg, hDify, hGoogle, hv]
    | true =>
      by_cases ho : ocrTextOf vision.json = ""
      · simp [POST, hs, hImg, hDify, hGoogle, hv, ho]
      · cases hw : fetchOk workflow.status with
        | false => simp [POST, hs, hImg, hDify, hGoogle, hv, ho, hw]
        | true => simp [POST, hs, hImg, hDify, hGoogle, hv, ho, hw]
  · intro hp
    have hImg : jsTruthyStr req.image = false := by
      rcases hp with h | h <;> simp [jsTruthyStr, h]
    constructor <;> simp [POST, hImg]

/-- C10 witness: an image string that is not a data URL and has no comma
still reaches the OCR call, with an absent content field. -/
theorem C10_no_image_validation_witness :
    (⟨some "nonsense", none⟩ : AnalyzeRequest).image = some "nonsense" ∧
    ("nonsense" : String) ≠ "" ∧
    (POST envOk ⟨some "nonsense", none⟩ visionHello wfItemValue).2.visionCall =
      some ⟨"https://vision.googleapis.com/v1/images:annotate?key=" ++
          envOk.GOOGLE_VISION_API_KEY.getD "",
        (jsSplit ',' "nonsense").get? 1, "TEXT_DETECTION"⟩ := by
  have h := (C10_no_image_validation envOk ⟨some "nonsense", none⟩ visionHello wfItemValue
    (by decide) (by decide)).1 "nonsense" rfl (by decide)
  exact ⟨rfl, by decide, h⟩

/-! ## C6: image preparer scaling -/

/-- Rewriting of `canvasDims` through a computed `scaleDims` value. -/
theorem canvasDims_eq (w h : ℕ) (a b : ℚ) (hs : scaleDims (w : ℚ) (h : ℚ) = (a, b)) :
    canvasDims w h = (⌊a⌋, ⌊b⌋) := by
  simp [canvasDims, hs]

/-- C6: when the larger decoded dimension exceeds 1024 the output raster's
larger dimension is exactly 1024, the (pre-raster) scaled dimensions preserve
the aspect ratio exactly, and rasterization moves each dimension by less than
one pixel; when both dimensions are within 1024 the output dimensions equal
the input dimensions (no upscaling). -/
theorem C6_image_scaling (width height : ℕ) :
    (1024 < max width height →
      max (canvasDims width height).1 (canvasDims width height).2 = 1024 ∧
      (scaleDims (width : ℚ) (height : ℚ)).1 * (height : ℚ) =
        (scaleDims (width : ℚ) (height : ℚ)).2 * (width : ℚ) ∧
      |((canvasDims width height).1 : ℚ) - (scaleDims (width : ℚ) (height : ℚ)).1| < 1 ∧
      |((canvasDims width height).2 : ℚ) - (scaleDims (width : ℚ) (height : ℚ)).2| < 1) ∧
    (max width height ≤ 1024 →
      canvasDims width height = ((width : ℤ), (height : ℤ))) := by
  constructor
  · intro hbig
    by_cases hwh : (height : ℚ) < (width : ℚ)
    · -- the `width > height` branch of compressImage
      have hhw : height < width := by exact_mod_cast hwh
      have hmax : max width height = width := Nat.max_eq_left (le_of_lt hhw)
      have hw1024n : 1024 < width := by rw [hmax] at hbig; exact hbig
      have hw1024 : (1024 : ℚ) < (width : ℚ) := by exact_mod_cast hw1024n
      have hwpos : (0 : ℚ) < (width : ℚ) := by linarith
      have hscale : scaleDims (width : ℚ) (height : ℚ) =
          (1024, (height : ℚ) * (1024 / (width : ℚ))) := by
        simp only [scaleDims, MAX_WIDTH]
        rw [if_pos hwh, if_pos hw1024]
      have hxlt : (height : ℚ) * (1024 / (width : ℚ)) < 1024 := by
        have hpos : (0 : ℚ) < 1024 / (width : ℚ) := by positivity
        have h1 : (height : ℚ) * (1024 / (width : ℚ)) <
            (width : ℚ) * (1024 / (width : ℚ)) := mul_lt_mul_of_pos_right hwh hpos
        have h2 : (width : ℚ) * (1024 / (width : ℚ)) = 1024 := by field_simp
        linarith
      have hcd : canvasDims width height =
          (1024, ⌊(height : ℚ) * (1024 / (width : ℚ))⌋) := by
        rw [canvasDims_eq width height _ _ hscale]
        norm_num
      have hfb : ⌊(height : ℚ) * (1024 / (width : ℚ))⌋ ≤ (1024 : ℤ) := by
        have hq : ((⌊(height : ℚ) * (1024 / (width : ℚ))⌋ : ℚ)) < 1024 :=
          lt_of_le_of_lt (Int.floor_le _) hxlt
        exact_mod_cast hq.le
      refine ⟨?_, ?_, ?_, ?_⟩
      · rw [hcd]
        exact max_eq_left hfb
      · rw [hscale]
        field_simp
        ring
      · rw [hcd, hscale]
        norm_num
      · rw [hcd, hscale]
        exact abs_floor_sub_lt_one _
    · -- the `width <= height` branch of compressImage
      have hwhn : ¬ ((height : ℚ) < (width : ℚ)) := hwh
      have hhw : width ≤ height := by exact_mod_cast not_lt.mp hwhn
      have hmax : max width height = height := Nat.max_eq_right hhw
      have hh1024n : 1024 < height := by rw [hmax] at hbig; exact hbig
      have hh1024 : (1024 : ℚ) < (height : ℚ) := by exact_mod_cast hh1024n
      have hhpos : (0 : ℚ) < (height : ℚ) := by linarith
      have hscale : scaleDims (width : ℚ) (height : ℚ) =
          ((width : ℚ) * (1024 / (height : ℚ)), 1024) := by
        simp only [scaleDims, MAX_WIDTH, MAX_HEIGHT]
        rw [if_neg hwhn, if_pos hh1024]
      have hxle : (width : ℚ) * (1024 / (height : ℚ)) ≤ 1024 := by
        have hpos : (0 : ℚ) < 1024 / (height : ℚ) := by positivity
        have hwq : (width : ℚ) ≤ (height : ℚ) := by exact_mod_cast hhw
        have h1 : (width : ℚ) * (1024 / (height : ℚ)) ≤
            (height : ℚ) * (1024 / (height : ℚ)) := mul_le_mul_of_nonneg_right hwq hpos.le
        have h2 : (height : ℚ) * (1024 / (height : ℚ)) = 1024 := by field_simp
        linarith
      have hcd : canvasDims width height =
          (⌊(width : ℚ) * (1024 / (height : ℚ))⌋, 1024) := by
        rw [canvasDims_eq width height _ _ hscale]
        norm_num
      have hfb : ⌊(width : ℚ) * (1024 / (height : ℚ))⌋ ≤ (1024 : ℤ) := by
        have hq : ((⌊(width : ℚ) * (1024 / (height : ℚ))⌋ : ℚ)) ≤ 1024 :=
          le_trans (Int.floor_le _) hxle
        exact_mod_cast hq
      refine ⟨?_, ?_, ?_, ?_⟩
      · rw [hcd]
        exact max_eq_right hfb
      · rw [hscale]
        field_simp
        ring
      · rw [hcd, hscale]
        exact abs_floor_sub_lt_one _
      · rw [hcd, hscale]
        norm_num
  · intro hsmall
    have hwle : (width : ℚ) ≤ 1024 := by
      exact_mod_cast le_trans (Nat.le_max_left width height) hsmall
    have hhle : (height : ℚ) ≤ 1024 := by
      exact_mod_cast le_trans (Nat.le_max_right width height) hsmall
    have hscale : scaleDims (width : ℚ) (height : ℚ) = ((width : ℚ), (height : ℚ)) := by
      simp only [scaleDims, MAX_WIDTH, MAX_HEIGHT]
      by_cases hwh : (height : ℚ) < (width : ℚ)
      · rw [if_pos hwh, if_neg (not_lt.mpr hwle)]
      · rw [if_neg hwh, if_neg (not_lt.mpr hhle)]
    rw [canvasDims_eq width height _ _ hscale, Int.floor_natCast, Int.floor_natCast]

/-- C6 witness: an oversized 2048×1000 image and an in-bound 800×600 one. -/
theorem C6_image_scaling_witness :
    1024 < max 2048 1000 ∧
    (max (canvasDims 2048 1000).1 (canvasDims 2048 1000).2 = 1024 ∧
      (scaleDims ((2048 : ℕ) : ℚ) ((1000 : ℕ) : ℚ)).1 * ((1000 : ℕ) : ℚ) =
        (scaleDims ((2048 : ℕ) : ℚ) ((1000 : ℕ) : ℚ)).2 * ((2048 : ℕ) : ℚ) ∧
      |((canvasDims 2048 1000).1 : ℚ) - (scaleDims ((2048 : ℕ) : ℚ) ((1000 : ℕ) : ℚ)).1| < 1 ∧
      |((canvasDims 2048 1000).2 : ℚ) - (scaleDims ((2048 : ℕ) : ℚ) ((1000 : ℕ) : ℚ)).2| < 1) ∧
    max 800 600 ≤ 1024 ∧ canvasDims 800 600 = ((800 : ℤ), (600 : ℤ)) := by
  refine ⟨by decide, (C6_image_scaling 2048 1000).1 (by decide), by decide,
    (C6_image_scaling 800 600).2 (by decide)⟩

/-! ## C7: non-image MIME type -/

/-- C7: for every file whose MIME type does not begin with "image/",
`processFile` fails with the validation error message shown to the user and
never invokes `compressImage` (no decode or encode work; `processFile` makes
no network call in any case — only `handleAnalyze` does). -/
theorem C7_not_an_image (f : FileLike) (dec : DecodeOutcome)
    (h : strStartsWith f.fileType "image/" = false) :
    processFile f dec = (.validationError "画像ファイルを選択してください。", false) := by
  simp [processFile, h]

/-- C7 witness: a "text/plain" file. -/
theorem C7_not_an_image_witness :
    strStartsWith "text/plain" "image/" = false ∧
    processFile ⟨"text/plain"⟩ .failed =
      (.validationError "画像ファイルを選択してください。", false) := by
  exact ⟨by decide, C7_not_an_image ⟨"text/plain"⟩ .failed (by decide)⟩
